import Mathlib

/-!
Verification of the HashEngine native hash service
(`src/hashengine/src/bin/server.rs`), a shallow embedding in Lean 4.

Strings travelling over the wire (seeds, preimages, digests) are modelled
as their UTF-8 byte sequences (`List Nat`), because the server operates on
`as_bytes()` views everywhere; the one place where byte-level structure of
a string matters (the `&s[..16.min(s.len())]` slice in `init_handler`,
which panics off a UTF-8 character boundary) is modelled explicitly.

The dataset-construction function (`Rom::new`, in `rom.rs`) and the digest
function (`hashengine::hash`, in `hashengine.rs`) are external
collaborators: the spec declares both out of scope and pure, and their
source files are not part of this repository snapshot.  `Rom.new` is
modelled as a record of exactly the arguments the server passes to it;
the digest function is a parameter (`digestFn`) of the serving layer, so
every theorem below quantifies over all pure digest functions.
-/

namespace HashServer

/-- UTF-8 bytes of a wire string. -/
abbrev Bytes := List Nat

/-- `ashConfig` object of an `/init` request body (struct `AshConfig`,
server.rs lines 35-44). -/
structure AshConfig where
  nbLoops : Nat
  nbInstrs : Nat
  preSize : Nat
  romSize : Nat
  mixingNumbers : Nat
  deriving Repr, DecidableEq

/-- `/init` request body (struct `InitRequest`, server.rs lines 28-33). -/
structure InitRequest where
  noPreMine : Bytes
  ashConfig : AshConfig
  deriving Repr, DecidableEq

/-- `/init` response body (struct `InitResponse`, server.rs lines 46-51). -/
structure InitResponse where
  status : String
  workerPid : Nat
  noPreMine : Bytes
  deriving Repr, DecidableEq

/-- `/hash` request body (struct `HashRequest`, server.rs lines 53-56). -/
structure HashRequest where
  preimage : Bytes
  deriving Repr, DecidableEq

/-- `/hash` response body (struct `HashResponse`, server.rs lines 58-61). -/
structure HashResponse where
  hash : Bytes
  deriving Repr, DecidableEq

/-- `/hash-batch` request body (struct `BatchHashRequest`, server.rs
lines 63-66). -/
structure BatchHashRequest where
  preimages : List Bytes
  deriving Repr, DecidableEq

/-- `/hash-batch` response body (struct `BatchHashResponse`, server.rs
lines 68-71). -/
structure BatchHashResponse where
  hashes : List Bytes
  deriving Repr, DecidableEq

/-- `/health` response body (struct `HealthResponse`, server.rs
lines 73-86). -/
structure HealthResponse where
  status : String
  romInitialized : Bool
  nativeAvailable : Bool
  config : Option String
  noPreMineFirst8 : Option String
  noPreMineLast8 : Option String
  deriving Repr, DecidableEq

/-- Error response body (struct `ErrorResponse`, server.rs lines 88-91). -/
structure ErrorResponse where
  error : String
  deriving Repr, DecidableEq

/-- `/update-mining-workers` request body (struct
`UpdateMiningWorkersRequest`, server.rs lines 93-96). -/
structure UpdateMiningWorkersRequest where
  miningWorkerCount : Nat
  deriving Repr, DecidableEq

/-- `/update-mining-workers` response body (struct
`UpdateMiningWorkersResponse`, server.rs lines 98-104). -/
structure UpdateMiningWorkersResponse where
  status : String
  currentActixWorkers : Nat
  recommendedActixWorkers : Nat
  message : String
  deriving Repr, DecidableEq

/-- Outcome of a handler, keeping the HTTP status classes the server
actually distinguishes: `ok` (200), `serviceUnavailable` (503, the
not-ready error) and `badRequest` (400, the invalid-input error). -/
inductive HResp (α : Type) where
  | ok (body : α)
  | serviceUnavailable (body : ErrorResponse)
  | badRequest (body : ErrorResponse)
  deriving Repr, DecidableEq

/-- Modelled from the spec: the dataset snapshot built by `Rom::new`
(`rom.rs`, an external collaborator not in this repository snapshot; spec
section 1 declares dataset generation a pure function of seed bytes and
generation parameters).  The record holds exactly the arguments
`init_handler` passes at server.rs lines 130-137: the seed bytes, the
`TwoStep` parameters `pre_size` and `mixing_numbers`, and `rom_size`.
`nbLoops` and `nbInstrs` are NOT among them. -/
structure Rom where
  seed : Bytes
  preSize : Nat
  mixingNumbers : Nat
  romSize : Nat
  deriving Repr, DecidableEq

/-- Modelled from the spec: `Rom::new` as called at server.rs
lines 130-137 (pure, deterministic construction from the four arguments
the server supplies). -/
def Rom.new (seed : Bytes) (preSize mixingNumbers romSize : Nat) : Rom :=
  ⟨seed, preSize, mixingNumbers, romSize⟩

/-- A digest function: the shape of `hashengine::hash` (preimage bytes,
ROM, loop count, instruction count → digest bytes).  The spec declares
the digest function out of scope and pure, so the serving layer is
parameterised over it. -/
abbrev DigestFn := Bytes → Rom → Nat → Nat → Bytes

/-- Lowercase hex digit, as produced by `hex::encode`. -/
def hexDigit (n : Nat) : Nat :=
  if n < 10 then 48 + n else 87 + n

/-- `hex::encode`: each byte becomes two lowercase hex digits (bytes of
the resulting string). -/
def hexEncode (bs : Bytes) : Bytes :=
  bs.flatMap fun b => [hexDigit (b / 16), hexDigit (b % 16)]

/-- Rust `str::is_char_boundary` on the byte sequence of a string:
index 0 and the length are boundaries, an interior index is a boundary
exactly when the byte there is not a UTF-8 continuation byte
(`0x80..=0xBF`); an index past the end is not a boundary. -/
def isCharBoundary (s : Bytes) (i : Nat) : Bool :=
  if i = 0 then true
  else if h : i < s.length then
    decide (s.get ⟨i, h⟩ < 0x80 ∨ 0xC0 ≤ s.get ⟨i, h⟩)
  else decide (i = s.length)

/-- The seed echo `&req.no_pre_mine[..16.min(req.no_pre_mine.len())]`
computed at server.rs lines 114 and 153.  Rust byte-slicing a `str`
panics when the end index is not a character boundary; the panic is
modelled as `none`. -/
def truncEcho (s : Bytes) : Option Bytes :=
  let i := min 16 s.length
  if isCharBoundary s i then some (s.take i) else none

/-- Bytes of the literal `"..."` appended by `format!("{}...", ...)`. -/
def dots : Bytes := [46, 46, 46]

/-- The process-wide mutable state of the server: the `ROM` slot
(server.rs line 26, `RwLock<Option<Arc<Rom>>>`, initially `None`) and the
advisory `MINING_WORKER_COUNT` (server.rs lines 108-109, initially
`None`). -/
structure ServerState where
  rom : Option Rom
  miningWorkerCount : Option Nat
  deriving Repr, DecidableEq

/-- The state at process start: both slots empty. -/
def ServerState.initial : ServerState := ⟨none, none⟩

/-- `init_handler` (server.rs lines 112-155), parameterised over the
dataset builder so that construction failure (a panic inside `Rom::new`,
the spec's ConstructionFailure) can be analysed: `build` returning `none`
models that panic, and `none` as overall response models the handler
dying before producing a response.  Faithful to the source order: the
seed echo is sliced first (line 114, may panic), then the dataset is
built (lines 130-137, before any write lock), and only then is the `ROM`
slot overwritten (lines 143-146) and the response produced (lines
150-154). -/
def initHandlerWith (build : Bytes → Nat → Nat → Nat → Option Rom)
    (pid : Nat) (s : ServerState) (req : InitRequest) :
    ServerState × Option InitResponse :=
  match truncEcho req.noPreMine with
  | none => (s, none)
  | some echo =>
    match build req.noPreMine req.ashConfig.preSize
        req.ashConfig.mixingNumbers req.ashConfig.romSize with
    | none => (s, none)
    | some rom =>
      ({ s with rom := some rom },
       some { status := "initialized", workerPid := pid,
              noPreMine := echo ++ dots })

/-- `init_handler` with the actual (total) `Rom::new` construction. -/
def initHandler (pid : Nat) (s : ServerState) (req : InitRequest) :
    ServerState × Option InitResponse :=
  initHandlerWith (fun seed ps mx rs => some (Rom.new seed ps mx rs))
    pid s req

/-- `hash_handler` (server.rs lines 158-178): read the `ROM` slot; if
empty answer 503 `"ROM not initialized. Call /init first."`; otherwise
hash the preimage bytes with the fixed arguments `8` and `256`
(line 172) and answer the lowercase hex digest.  The handler never
writes the state; the returned state records that. -/
def hashHandler (digestFn : DigestFn) (s : ServerState)
    (req : HashRequest) : ServerState × HResp HashResponse :=
  match s.rom with
  | none =>
    (s, .serviceUnavailable ⟨"ROM not initialized. Call /init first."⟩)
  | some rom =>
    (s, .ok ⟨hexEncode (digestFn req.preimage rom 8 256)⟩)

/-- `hash_batch_handler` (server.rs lines 181-232).  Source order kept:
the `ROM` readiness check (lines 186-196) comes BEFORE the emptiness
check (lines 198-202).  The rayon `par_iter().map(...).collect()` at
lines 210-217 preserves input order by construction (results are
collected by original position), so it is `List.map`; each element is
hashed with the fixed arguments `8` and `256` (line 214). -/
def hashBatchHandler (digestFn : DigestFn) (s : ServerState)
    (req : BatchHashRequest) : ServerState × HResp BatchHashResponse :=
  match s.rom with
  | none =>
    (s, .serviceUnavailable ⟨"ROM not initialized. Call /init first."⟩)
  | some rom =>
    if req.preimages.isEmpty then
      (s, .badRequest ⟨"preimages array is required"⟩)
    else
      (s, .ok ⟨req.preimages.map fun p => hexEncode (digestFn p rom 8 256)⟩)

/-- `hash_batch_shared_handler` (server.rs lines 236-296), after the
JSON `preimages` field has been extracted (transport parsing is out of
scope); here the array-shape check (lines 238-249) precedes the `ROM`
check (lines 251-261) and then the emptiness check (lines 263-267). -/
def hashBatchSharedHandler (digestFn : DigestFn) (s : ServerState)
    (req : Option (List Bytes)) : ServerState × HResp BatchHashResponse :=
  match req with
  | none => (s, .badRequest ⟨"preimages array is required"⟩)
  | some preimages =>
    match s.rom with
    | none =>
      (s, .serviceUnavailable ⟨"ROM not initialized. Call /init first."⟩)
    | some rom =>
      if preimages.isEmpty then
        (s, .badRequest ⟨"preimages array is required"⟩)
      else
        (s, .ok ⟨preimages.map fun p => hexEncode (digestFn p rom 8 256)⟩)

/-- `health_handler` (server.rs lines 299-312): always 200, reports
whether the `ROM` slot holds a snapshot; the three optional fields are
always `None`. -/
def healthHandler (s : ServerState) : ServerState × HealthResponse :=
  (s, { status := "ok", romInitialized := s.rom.isSome,
        nativeAvailable := true, config := none,
        noPreMineFirst8 := none, noPreMineLast8 := none })

/-- The recommended Actix worker count computed inside
`update_mining_workers_handler` (server.rs lines 323-331).  The source
computes the middle tiers as `(mining_workers as f64 * 1.5) as usize`
and `(mining_workers as f64 * 1.2) as usize`; on the guard ranges of
those tiers (`20..50` and `50..100`) the f64 computation truncates to
exactly `3*w/2` and `6*w/5` (for `20 <= w < 50`, `w * 1.5` is exactly
representable; for `50 <= w < 100` the rounded product `w * fl(1.2)`
lands on `floor(6*w/5)` for each of the fifty values), so natural-number
division is an exact model here. -/
def recommendedWorkers (miningWorkers cpu : Nat) : Nat :=
  if miningWorkers < 20 then min cpu (miningWorkers * 2)
  else if miningWorkers < 50 then min cpu (miningWorkers * 3 / 2)
  else if miningWorkers < 100 then min cpu (miningWorkers * 6 / 5)
  else min cpu (miningWorkers + 10)

/-- `update_mining_workers_handler` (server.rs lines 318-348): stores
the declared count in `MINING_WORKER_COUNT` (lines 334-337) and always
answers 200 with `current_actix_workers` set to the CPU count (line 344,
`// Can't get actual count, return CPU count`) and the recommendation of
lines 323-331.  `cpu` is `num_cpus::get()`. -/
def updateMiningWorkersHandler (cpu : Nat) (s : ServerState)
    (req : UpdateMiningWorkersRequest) :
    ServerState × UpdateMiningWorkersResponse :=
  let recommended := recommendedWorkers req.miningWorkerCount cpu
  ({ s with miningWorkerCount := some req.miningWorkerCount },
   { status := "updated",
     currentActixWorkers := cpu,
     recommendedActixWorkers := recommended,
     message :=
       "Mining worker count registered. Note: Actix workers are set at " ++
       "startup and cannot be changed at runtime. Recommended: " ++
       toString recommended ++ " workers (restart server with WORKERS=" ++
       toString recommended ++ " to apply)" })

/-- The raw (uncapped) worker count computed in `main`
(server.rs lines 384-396); same tier formulas as the handler, with the
same exact natural-number model of the f64 middle tiers. -/
def startupCalculated (miningWorkers : Nat) : Nat :=
  if miningWorkers < 20 then miningWorkers * 2
  else if miningWorkers < 50 then miningWorkers * 3 / 2
  else if miningWorkers < 100 then miningWorkers * 6 / 5
  else miningWorkers + 10

/-- The Actix worker count the process is actually started with
(server.rs lines 374-406): when `MINING_WORKER_COUNT` is set it is
`min(cpu_count, max(calculated, 4))` (line 397, `// At least 4
workers`); otherwise the parsed `WORKERS` variable, defaulting to the
CPU count when unset or unparseable. -/
def startupWorkers (miningEnv workersEnv : Option Nat) (cpu : Nat) : Nat :=
  match miningEnv with
  | some mw => min cpu (max (startupCalculated mw) 4)
  | none =>
    match workersEnv with
    | some w => w
    | none => cpu

/-- The claim C1 / spec section 4.3 formula for the capacity
recommendation, written from the spec's words for comparison with
`recommendedWorkers` (the source): `min(p, max(raw, 4))`. -/
def specRecommend (clients p : Nat) : Nat :=
  let raw :=
    if clients < 20 then clients * 2
    else if clients < 50 then clients * 3 / 2
    else if clients < 100 then clients * 6 / 5
    else clients + 10
  min p (max raw 4)

/-- A request to any of the six routes (server.rs lines 443-448),
payloads already parsed. -/
inductive Request where
  | init (req : InitRequest)
  | hash (req : HashRequest)
  | hashBatch (req : BatchHashRequest)
  | hashBatchShared (req : Option (List Bytes))
  | health
  | updateMiningWorkers (req : UpdateMiningWorkersRequest)
  deriving Repr

/-- State transition of one handled request: the state component of the
corresponding handler. -/
def step (digestFn : DigestFn) (pid cpu : Nat) (req : Request)
    (s : ServerState) : ServerState :=
  match req with
  | .init r => (initHandler pid s r).1
  | .hash r => (hashHandler digestFn s r).1
  | .hashBatch r => (hashBatchHandler digestFn s r).1
  | .hashBatchShared r => (hashBatchSharedHandler digestFn s r).1
  | .health => (healthHandler s).1
  | .updateMiningWorkers r => (updateMiningWorkersHandler cpu s r).1

/-- A concrete pure digest function used to instantiate `DigestFn` in
closed statements (the identity on the preimage). -/
def sampleDigest : DigestFn := fun p _ _ _ => p

/-- A concrete snapshot used in closed statements. -/
def sampleRom : Rom := Rom.new [0] 1 1 1

lemma hashHandler_state (digestFn : DigestFn) (s : ServerState)
    (r : HashRequest) : (hashHandler digestFn s r).1 = s := by
  cases h : s.rom <;> simp [hashHandler, h]

lemma hashBatchHandler_state (digestFn : DigestFn) (s : ServerState)
    (r : BatchHashRequest) : (hashBatchHandler digestFn s r).1 = s := by
  cases h : s.rom with
  | none => simp [hashBatchHandler, h]
  | some rom =>
    by_cases he : r.preimages.isEmpty <;> simp [hashBatchHandler, h, he]

lemma hashBatchSharedHandler_state (digestFn : DigestFn) (s : ServerState)
    (r : Option (List Bytes)) : (hashBatchSharedHandler digestFn s r).1 = s := by
  cases r with
  | none => simp [hashBatchSharedHandler]
  | some ps =>
    cases h : s.rom with
    | none => simp [hashBatchSharedHandler, h]
    | some rom =>
      by_cases he : ps.isEmpty <;> simp [hashBatchSharedHandler, h, he]

/-- Claim C1 (code bug): at declared client count 1 with available
parallelism 16, the Update-capacity-signal handler recommends
`min(16, 1*2) = 2`, while the claimed formula `min(p, max(raw, 4))`
gives 4.  The handler (server.rs lines 323-331) omits the `max(_, 4)`
lower bound that startup applies at line 397, although its comment at
line 322 says it uses the same logic as startup — so recommendations
below 4 escape the handler. -/
theorem c1_handler_recommendation_below_four :
    recommendedWorkers 1 16 = 2 ∧
    specRecommend 1 16 = 4 ∧
    (updateMiningWorkersHandler 16 ServerState.initial
      ⟨1⟩).2.recommendedActixWorkers = 2 ∧
    startupWorkers (some 1) none 16 = 4 := by
  refine ⟨rfl, rfl, rfl, rfl⟩

/-- Claim C2 (confirmed): while a snapshot is published, a non-empty
Hash-batch answers 200 with exactly one digest per preimage: the
response has the input's length and its i-th digest is the Hash-one
digest of the i-th preimage against the same snapshot.  Order
preservation holds for every digest function; the rayon fan-out writes
results by original position, so worker completion order is invisible
in the model. -/
theorem c2_hashBatch_agrees_with_hashOne (digestFn : DigestFn)
    (rom : Rom) (s : ServerState) (ps : List Bytes)
    (hrom : s.rom = some rom) (hne : ps ≠ []) :
    ∃ hs : List Bytes,
      hashBatchHandler digestFn s ⟨ps⟩ = (s, .ok ⟨hs⟩) ∧
      hs.length = ps.length ∧
      ∀ (i : Nat) (p : Bytes), ps[i]? = some p →
        ∃ d, hs[i]? = some d ∧
          (hashHandler digestFn s ⟨p⟩).2 = .ok ⟨d⟩ := by
  refine ⟨ps.map fun p => hexEncode (digestFn p rom 8 256), ?_, ?_, ?_⟩
  · have he : ps.isEmpty = false := by
      cases ps with
      | nil => exact absurd rfl hne
      | cons a l => rfl
    simp [hashBatchHandler, hrom, he]
  · simp
  · intro i p hp
    refine ⟨hexEncode (digestFn p rom 8 256), ?_, ?_⟩
    · simp [List.getElem?_map, hp]
    · simp [hashHandler, hrom]

theorem c2_hashBatch_agrees_with_hashOne_witness :
    ∃ hs : List Bytes,
      hashBatchHandler sampleDigest ⟨some sampleRom, none⟩ ⟨[[1], [2]]⟩ =
        (⟨some sampleRom, none⟩, .ok ⟨hs⟩) ∧
      hs.length = ([[1], [2]] : List Bytes).length ∧
      ∀ (i : Nat) (p : Bytes), ([[1], [2]] : List Bytes)[i]? = some p →
        ∃ d, hs[i]? = some d ∧
          (hashHandler sampleDigest ⟨some sampleRom, none⟩ ⟨p⟩).2 =
            .ok ⟨d⟩ :=
  c2_hashBatch_agrees_with_hashOne sampleDigest sampleRom
    ⟨some sampleRom, none⟩ [[1], [2]] rfl (by decide)

/-- Claim C3 counterexample: a Hash-batch with an empty preimage
sequence issued before any Initialize is answered with the not-ready
error (503, readiness is checked first at server.rs lines 186-196),
NOT with the InvalidInput error (400, lines 198-202) — so the claimed
"InvalidInput in every readiness state" fails in the uninitialized
state. -/
theorem c3_emptyBatch_beforeInit_is_notReady :
    (hashBatchHandler sampleDigest ServerState.initial ⟨[]⟩).2 =
      .serviceUnavailable ⟨"ROM not initialized. Call /init first."⟩ ∧
    (hashBatchHandler sampleDigest ServerState.initial ⟨[]⟩).2 ≠
      .badRequest ⟨"preimages array is required"⟩ := by
  refine ⟨rfl, ?_⟩
  intro h
  simp [hashBatchHandler, ServerState.initial] at h

/-- Claim C3 (corrected): once a snapshot is published, a Hash-batch
with an empty preimage sequence is rejected with the InvalidInput
error; before any Initialize, the not-ready check fires first instead
(see the counterexample). -/
theorem c3_emptyBatch_whenReady_badRequest (digestFn : DigestFn)
    (s : ServerState) (rom : Rom) (hrom : s.rom = some rom) :
    (hashBatchHandler digestFn s ⟨[]⟩).2 =
      .badRequest ⟨"preimages array is required"⟩ := by
  simp [hashBatchHandler, hrom]

theorem c3_emptyBatch_whenReady_badRequest_witness :
    (hashBatchHandler sampleDigest ⟨some sampleRom, none⟩ ⟨[]⟩).2 =
      .badRequest ⟨"preimages array is required"⟩ :=
  c3_emptyBatch_whenReady_badRequest sampleDigest ⟨some sampleRom, none⟩
    sampleRom rfl

/-- Claim C4 (confirmed): before any Initialize (ROM slot empty), every
Hash-one request and every non-empty Hash-batch request is answered with
the 503 not-ready error — an outcome distinct from every 200 and every
400 answer by constructor — and the answer is the same for EVERY digest
function, so no digest computation influences (or is needed for) that
path; the state is unchanged, nothing is queued. -/
theorem c4_notReady_rejects_hash_operations (digestFn : DigestFn)
    (s : ServerState) (hrom : s.rom = none) (p : Bytes) (ps : List Bytes)
    (_hne : ps ≠ []) :
    hashHandler digestFn s ⟨p⟩ =
      (s, .serviceUnavailable ⟨"ROM not initialized. Call /init first."⟩) ∧
    hashBatchHandler digestFn s ⟨ps⟩ =
      (s, .serviceUnavailable ⟨"ROM not initialized. Call /init first."⟩) ∧
    (∀ body : HashResponse,
      (hashHandler digestFn s ⟨p⟩).2 ≠ .ok body) ∧
    (∀ body : BatchHashResponse,
      (hashBatchHandler digestFn s ⟨ps⟩).2 ≠ .ok body) := by
  refine ⟨by simp [hashHandler, hrom], by simp [hashBatchHandler, hrom],
    ?_, ?_⟩
  · intro body h
    simp [hashHandler, hrom] at h
  · intro body h
    simp [hashBatchHandler, hrom] at h

theorem c4_notReady_rejects_hash_operations_witness :
    hashHandler sampleDigest ServerState.initial ⟨[7]⟩ =
      (ServerState.initial,
       .serviceUnavailable ⟨"ROM not initialized. Call /init first."⟩) ∧
    hashBatchHandler sampleDigest ServerState.initial ⟨[[7]]⟩ =
      (ServerState.initial,
       .serviceUnavailable ⟨"ROM not initialized. Call /init first."⟩) ∧
    (∀ body : HashResponse,
      (hashHandler sampleDigest ServerState.initial ⟨[7]⟩).2 ≠ .ok body) ∧
    (∀ body : BatchHashResponse,
      (hashBatchHandler sampleDigest ServerState.initial ⟨[[7]]⟩).2 ≠
        .ok body) :=
  c4_notReady_rejects_hash_operations sampleDigest ServerState.initial
    rfl [7] [[7]] (by decide)

/-- Claim C5 (confirmed): whenever the seed-echo slice is well defined
(its byte index falls on a character boundary — always true for the hex
seeds the service receives), Initialize succeeds from EVERY starting
state, empty or already holding a snapshot: it unconditionally installs
the newly built snapshot (server.rs lines 143-146 overwrite the slot, a
prior value only triggers the informational log of line 122) and answers
with the acknowledgement `"initialized"`, the process identifier, and
the truncated seed echo. -/
theorem c5_init_replaces_and_acknowledges (pid : Nat) (s : ServerState)
    (req : InitRequest)
    (hb : isCharBoundary req.noPreMine (min 16 req.noPreMine.length) = true) :
    initHandler pid s req =
      ({ s with rom := some (Rom.new req.noPreMine req.ashConfig.preSize
          req.ashConfig.mixingNumbers req.ashConfig.romSize) },
       some { status := "initialized", workerPid := pid,
              noPreMine := req.noPreMine.take (min 16 req.noPreMine.length)
                ++ dots }) := by
  unfold initHandler initHandlerWith truncEcho
  simp [hb]

theorem c5_init_replaces_and_acknowledges_witness :
    initHandler 7 ⟨some sampleRom, none⟩ ⟨[97, 98, 99], ⟨8, 256, 2, 3, 4⟩⟩ =
      (⟨some (Rom.new [97, 98, 99] 2 4 3), none⟩,
       some ⟨"initialized", 7, [97, 98, 99] ++ dots⟩) :=
  c5_init_replaces_and_acknowledges 7 ⟨some sampleRom, none⟩
    ⟨[97, 98, 99], ⟨8, 256, 2, 3, 4⟩⟩ (by decide)

/-- Claim C6 (confirmed): in `init_handler`, dataset construction runs
to completion before the write lock on the `ROM` slot is ever taken
(server.rs lines 130-137 precede lines 143-146), and the write-locked
section is only the pointer swap; hence when construction fails (the
builder dies, modelled by `build` returning `none`) the state — in
particular the previously published snapshot, or the empty slot — is
exactly what it was before the attempt. -/
theorem c6_construction_failure_leaves_holder
    (build : Bytes → Nat → Nat → Nat → Option Rom) (pid : Nat)
    (s : ServerState) (req : InitRequest)
    (hfail : build req.noPreMine req.ashConfig.preSize
      req.ashConfig.mixingNumbers req.ashConfig.romSize = none) :
    initHandlerWith build pid s req = (s, none) := by
  unfold initHandlerWith
  cases h : truncEcho req.noPreMine with
  | none => rfl
  | some echo => simp [hfail]

theorem c6_construction_failure_leaves_holder_witness :
    initHandlerWith (fun _ _ _ _ => none) 0 ⟨some sampleRom, none⟩
      ⟨[97], ⟨8, 256, 1, 1, 1⟩⟩ = (⟨some sampleRom, none⟩, none) :=
  c6_construction_failure_leaves_holder (fun _ _ _ _ => none) 0
    ⟨some sampleRom, none⟩ ⟨[97], ⟨8, 256, 1, 1, 1⟩⟩ rfl

/-- Claim C7 (confirmed): Health always answers 200 and reports ready
exactly when the `ROM` slot holds a snapshot (its body is a pure read of
`is_some`, server.rs lines 299-312); and readiness never regresses: no
route of the server ever returns the slot to `None` once it holds a
snapshot (`init` only ever writes `Some`, server.rs line 145; every
other handler leaves the slot untouched). -/
theorem c7_health_reports_readiness_and_never_regresses :
    (∀ s : ServerState,
      healthHandler s =
        (s, { status := "ok", romInitialized := s.rom.isSome,
              nativeAvailable := true, config := none,
              noPreMineFirst8 := none, noPreMineLast8 := none })) ∧
    (∀ (digestFn : DigestFn) (pid cpu : Nat) (req : Request)
        (s : ServerState), s.rom.isSome = true →
      (step digestFn pid cpu req s).rom.isSome = true) := by
  refine ⟨fun s => rfl, ?_⟩
  intro digestFn pid cpu req s hs
  cases req with
  | init r =>
    simp only [step, initHandler, initHandlerWith]
    cases h : truncEcho r.noPreMine with
    | none => exact hs
    | some echo => rfl
  | hash r => rw [step, hashHandler_state]; exact hs
  | hashBatch r => rw [step, hashBatchHandler_state]; exact hs
  | hashBatchShared r => rw [step, hashBatchSharedHandler_state]; exact hs
  | health => exact hs
  | updateMiningWorkers r => exact hs

theorem c7_health_never_regresses_witness :
    (step sampleDigest 0 1 .health ⟨some sampleRom, none⟩).rom.isSome =
      true :=
  c7_health_reports_readiness_and_never_regresses.2 sampleDigest 0 1
    .health ⟨some sampleRom, none⟩ rfl

/-- Claim C8 counterexample: the handler's `current_actix_workers` field
is the CPU count (server.rs line 344, `// Can't get actual count, return
CPU count`), not the worker count the process was started with.  A
process started with `MINING_WORKER_COUNT=1` on a 16-CPU machine runs
`min(16, max(1*2, 4)) = 4` Actix workers (server.rs line 397), yet the
handler reports 16. -/
theorem c8_current_workers_reports_cpu_not_startup :
    startupWorkers (some 1) none 16 = 4 ∧
    (updateMiningWorkersHandler 16 ServerState.initial
      ⟨1⟩).2.currentActixWorkers = 16 ∧
    (updateMiningWorkersHandler 16 ServerState.initial
      ⟨1⟩).2.currentActixWorkers ≠ startupWorkers (some 1) none 16 :=
  ⟨rfl, rfl, by decide⟩

/-- Claim C8 (corrected): Update-capacity-signal never fails, stores the
declared count in the advisory `MINING_WORKER_COUNT` slot, leaves the
`ROM` slot (and, the pool being fixed at startup, the live workers)
untouched, and returns the CapacityPlanner recommendation — but the
degree it reports back is the machine's CPU count, not the worker count
the process was actually started with. -/
theorem c8_updateWorkers_behaviour (cpu : Nat) (s : ServerState)
    (req : UpdateMiningWorkersRequest) :
    (updateMiningWorkersHandler cpu s req).1 =
      { s with miningWorkerCount := some req.miningWorkerCount } ∧
    (updateMiningWorkersHandler cpu s req).1.rom = s.rom ∧
    (updateMiningWorkersHandler cpu s req).2.status = "updated" ∧
    (updateMiningWorkersHandler cpu s req).2.recommendedActixWorkers =
      recommendedWorkers req.miningWorkerCount cpu ∧
    (updateMiningWorkersHandler cpu s req).2.currentActixWorkers = cpu :=
  ⟨rfl, rfl, rfl, rfl, rfl⟩

/-- Claim C9 (confirmed): two Initialize requests that agree on the
seed, pre-expansion size, dataset size and mixing-rounds count but
differ arbitrarily in `nbLoops` and `nbInstrs` produce identical
outcomes — identical states and identical responses — and therefore
identical digests on every later Hash-one and Hash-batch request:
`init_handler` never passes `nbLoops`/`nbInstrs` to `Rom::new`
(server.rs lines 130-137), and every digest call fixes the loop and
instruction counts to `8` and `256` (lines 172 and 214). -/
theorem c9_loop_instr_counts_have_no_effect (digestFn : DigestFn)
    (pid : Nat) (s : ServerState) (r1 r2 : InitRequest)
    (hseed : r1.noPreMine = r2.noPreMine)
    (hpre : r1.ashConfig.preSize = r2.ashConfig.preSize)
    (hromsz : r1.ashConfig.romSize = r2.ashConfig.romSize)
    (hmix : r1.ashConfig.mixingNumbers = r2.ashConfig.mixingNumbers) :
    initHandler pid s r1 = initHandler pid s r2 ∧
    (∀ p : HashRequest,
      hashHandler digestFn (initHandler pid s r1).1 p =
        hashHandler digestFn (initHandler pid s r2).1 p) ∧
    (∀ b : BatchHashRequest,
      hashBatchHandler digestFn (initHandler pid s r1).1 b =
        hashBatchHandler digestFn (initHandler pid s r2).1 b) := by
  have hinit : initHandler pid s r1 = initHandler pid s r2 := by
    unfold initHandler initHandlerWith
    rw [hseed, hpre, hromsz, hmix]
  exact ⟨hinit, fun p => by rw [hinit], fun b => by rw [hinit]⟩

theorem c9_loop_instr_counts_have_no_effect_witness :
    initHandler 5 ServerState.initial ⟨[104, 101, 120], ⟨3, 7, 64, 32, 2⟩⟩ =
      initHandler 5 ServerState.initial
        ⟨[104, 101, 120], ⟨8, 256, 64, 32, 2⟩⟩ :=
  (c9_loop_instr_counts_have_no_effect sampleDigest 5 ServerState.initial
    ⟨[104, 101, 120], ⟨3, 7, 64, 32, 2⟩⟩
    ⟨[104, 101, 120], ⟨8, 256, 64, 32, 2⟩⟩ rfl rfl rfl rfl).1

/-- Claim C10 counterexample: the seed echo slice is NOT panic-free for
every seed string.  The 17-byte seed `"aaaaaaaaaaaaaaaé"` (fifteen
`a`s followed by the two-byte character `U+00E9`, bytes
`0xC3 0xA9`) has `min(16, len) = 16`, and byte 16 is the UTF-8
continuation byte `0xA9`, so `&s[..16]` panics; the panic is the `none`
outcome here. -/
theorem c10_truncation_panics_on_multibyte_seed :
    truncEcho (List.replicate 15 97 ++ [195, 169]) = none := by decide

/-- Claim C10 (corrected): the seed-echo slice is panic-free exactly
when byte index `min(16, len)` is a character boundary; in particular it
is panic-free for every ASCII seed (every hex seed the service is given)
— for those it yields the first `min(16, len)` bytes — but a longer
seed whose byte 16 is a UTF-8 continuation byte panics (see the
counterexample). -/
theorem c10_truncation_panic_free_on_ascii (s : Bytes)
    (h : ∀ b ∈ s, b < 128) :
    truncEcho s = some (s.take (min 16 s.length)) := by
  have hb : isCharBoundary s (min 16 s.length) = true := by
    unfold isCharBoundary
    by_cases h0 : min 16 s.length = 0
    · simp [h0]
    · rw [if_neg h0]
      by_cases hlt : min 16 s.length < s.length
      · rw [dif_pos hlt]
        have hby := h (s.get ⟨min 16 s.length, hlt⟩) (s.get_mem _ _)
        simp only [decide_eq_true_eq]
        exact Or.inl (by omega)
      · rw [dif_neg hlt]
        have hle : min 16 s.length ≤ s.length := min_le_right _ _
        have heq : min 16 s.length = s.length := by omega
        simp [heq]
  unfold truncEcho
  simp [hb]

theorem c10_truncation_panic_free_on_ascii_witness :
    truncEcho [101, 56, 97, 49] =
      some (([101, 56, 97, 49] : Bytes).take
        (min 16 ([101, 56, 97, 49] : Bytes).length)) :=
  c10_truncation_panic_free_on_ascii [101, 56, 97, 49] (by decide)

end HashServer
